import Mathlib

/-!
Verification of the college-baseball-scraper repository.

Each Python module under src/ that the claims touch is shallowly embedded
as executable Lean definitions below, keeping the source structure and
names. Selector queries against the DOM (BeautifulSoup / Selenium) are
modelled by giving the parsing functions the values those queries return:
a roster card is a record of the selected name text, number text and link
href; a table is its class tokens together with its rows of cells, each
cell carrying whether it is a header cell. Python dictionaries are
modelled as association lists with insert-or-overwrite semantics, machine
floats from this code base (decimal stat strings) as rationals, fallible
Python code as Except / Option values.
-/

set_option autoImplicit false

namespace Scraper

/-! ## Shared string helpers (Python primitives) -/

/-- Whether the first list is an initial segment of the second. -/
def listStartsWith : List Char → List Char → Bool
  | [], _ => true
  | _ :: _, [] => false
  | a :: as, b :: bs => a == b && listStartsWith as bs

/-- Whether the first list occurs as a contiguous segment of the second. -/
def listContainsSub (needle : List Char) : List Char → Bool
  | [] => needle.isEmpty
  | b :: rest => listStartsWith needle (b :: rest) || listContainsSub needle rest

/-- Python substring test: the expression needle in hay on strings. -/
def substrB (needle hay : String) : Bool :=
  listContainsSub needle.toList hay.toList

/-- Numeric value of a list of decimal digit characters. -/
def digitsToNat (cs : List Char) : Nat :=
  cs.foldl (fun a c => 10 * a + (c.toNat - 48)) 0

/-- Zero-pad a number to the given width, as Python % formatting does. -/
def padNum (w n : Nat) : String :=
  let s := toString n
  String.mk (List.replicate (w - s.length) '0') ++ s

/-- Python re.sub of a whitespace run by a single space character. -/
def collapseWs (s : String) : String :=
  String.mk ((s.toList.foldl
    (fun (acc : List Char × Bool) c =>
      if c.isWhitespace then
        (if acc.2 then acc.1 else ' ' :: acc.1, true)
      else
        (c :: acc.1, false))
    ([], false)).1.reverse)

/-- Python str.strip with no argument: drop leading and trailing
whitespace. -/
def pyStrip (s : String) : String :=
  String.mk (((s.toList.dropWhile Char.isWhitespace).reverse.dropWhile
    Char.isWhitespace).reverse)

/-- Python str.lower on ASCII text. -/
def pyLower (s : String) : String :=
  String.mk (s.toList.map Char.toLower)

/-- Python str.startswith. -/
def pyStartsWith (s pre : String) : Bool :=
  listStartsWith pre.toList s.toList

/-- Python str.split with no argument: split on whitespace runs, dropping
empty pieces. -/
def pySplitWs (s : String) : List String :=
  let step : Char → List Char × List (List Char) → List Char × List (List Char) :=
    fun c acc =>
      if c.isWhitespace then
        (if acc.1.isEmpty then acc else ([], acc.1 :: acc.2))
      else (c :: acc.1, acc.2)
  let r := s.toList.foldr step ([], [])
  (if r.1.isEmpty then r.2 else r.1 :: r.2).map String.mk

/-- First candidate on which the continuation succeeds, mirroring regex
backtracking through an alternation. -/
def firstSome {α β : Type} (cands : List α) (k : α → Option β) : Option β :=
  match cands with
  | [] => none
  | c :: rest =>
      match k c with
      | some b => some b
      | none => firstSome rest k

/-- Python dict assignment d[k] = v on an association-list model: overwrite
the value at an existing key, otherwise append the new binding. -/
def dict_insert {α : Type} (d : List (String × α)) (k : String) (v : α) :
    List (String × α) :=
  if d.any (fun p => p.1 == k) then
    d.map (fun p => if p.1 == k then (k, v) else p)
  else
    d ++ [(k, v)]

/-- Python dict.get k on the association-list model. -/
def dict_get? {α : Type} (d : List (String × α)) (k : String) : Option α :=
  (d.find? (fun p => p.1 == k)).map (fun p => p.2)

/-! ## src/scraper/data_cleaner.py -/

namespace DataCleaner

/-- A Python number as produced by clean_stat_value: either an int or a
float. Stat-string floats are decimal, so the float value is carried as a
rational. -/
inductive PyNum where
  | pyInt (n : Int)
  | pyFloat (q : Rat)
  deriving DecidableEq, Repr

/-- The regex substitution re.sub of every character that is not a digit,
a decimal point or a minus sign by nothing (data_cleaner.py line 13). -/
def strip_non_numeric (s : String) : String :=
  String.mk (s.toList.filter (fun c => c.isDigit || c == '.' || c == '-'))

/-- Python int(s) on a string drawn from the digits-dot-minus alphabet:
an optional minus sign followed by at least one digit; anything else
raises ValueError, modelled as none. -/
def py_int_of_string? (s : String) : Option Int :=
  match s.toList with
  | [] => none
  | '-' :: rest =>
      if rest ≠ [] ∧ rest.all Char.isDigit then
        some (-(digitsToNat rest : Int))
      else none
  | l =>
      if l.all Char.isDigit then some (digitsToNat l : Int) else none

/-- Python float(s) on a string drawn from the digits-dot-minus alphabet:
an optional minus sign, then either digits with an optional point and
optional fraction digits, or a point followed by at least one digit. -/
def py_float_of_string? (s : String) : Option Rat :=
  let core : List Char → Option Rat := fun cs =>
    let intPart := cs.takeWhile Char.isDigit
    let rest := cs.dropWhile Char.isDigit
    if intPart ≠ [] then
      match rest with
      | [] => some (digitsToNat intPart : Rat)
      | '.' :: frac =>
          if frac.all Char.isDigit then
            some ((digitsToNat intPart : Rat) +
              (digitsToNat frac : Rat) / ((10 : Rat) ^ frac.length))
          else none
      | _ => none
    else
      match rest with
      | '.' :: frac =>
          if frac ≠ [] ∧ frac.all Char.isDigit then
            some ((digitsToNat frac : Rat) / ((10 : Rat) ^ frac.length))
          else none
      | _ => none
  match s.toList with
  | '-' :: rest => (core rest).map (fun q => -q)
  | l => core l

/-- data_cleaner.clean_stat_value. The Python argument is None or a
string, modelled as Option String; the result is a Python int or float. -/
def clean_stat_value (value : Option String) : PyNum :=
  match value with
  | none => .pyFloat 0
  | some s =>
    if s == "" || s == "-" then .pyFloat 0
    else
      let clean_val := strip_non_numeric s
      if substrB "." clean_val then
        match py_float_of_string? clean_val with
        | some q => .pyFloat q
        | none => .pyFloat 0
      else
        match py_int_of_string? clean_val with
        | some n => .pyInt n
        | none => .pyFloat 0

/-- The lowercased month abbreviations recognised by strptime %b. -/
def monthAbbrs : List String :=
  ["jan", "feb", "mar", "apr", "may", "jun",
   "jul", "aug", "sep", "oct", "nov", "dec"]

/-- strptime directive %b: three letters naming a month, case-insensitive.
Returns the month number and the remaining characters. -/
def parseMonthAbbr (cs : List Char) : Option (Nat × List Char) :=
  match cs with
  | a :: b :: c :: rest =>
      let w := String.mk [a.toLower, b.toLower, c.toLower]
      match (monthAbbrs.indexOf? w) with
      | some i => some (i + 1, rest)
      | none => none
  | _ => none

/-- Whitespace in a strptime format string matches one or more whitespace
characters of the data. -/
def parseWs1 (cs : List Char) : Option (List Char) :=
  match cs with
  | c :: rest => if c.isWhitespace then some (rest.dropWhile Char.isWhitespace) else none
  | [] => none

/-- strptime directive %d: the regex alternation 3[01], [12] digit,
0[1-9], [1-9], listed as candidate parses in the alternation order so a
failing continuation can fall back to a shorter parse. -/
def dayCandidates (cs : List Char) : List (Nat × List Char)    :=
  let two :=
    match cs with
    | a :: b :: rest =>
        if a == '3' && (b == '0' || b == '1') then
          [(30 + (b.toNat - 48), rest)]
        else if (a == '1' || a == '2') && b.isDigit then
          [(10 * (a.toNat - 48) + (b.toNat - 48), rest)]
        else if a == '0' && b.isDigit && b != '0' then
          [((b.toNat - 48), rest)]
        else []
    | _ => []
  let one :=
    match cs with
    | a :: rest => if a.isDigit && a != '0' then [((a.toNat - 48), rest)] else []
    | _ => []
  two ++ one

/-- strptime directive %m: the regex alternation 1[0-2], 0[1-9], [1-9]. -/
def monthCandidates (cs : List Char) : List (Nat × List Char) :=
  let two :=
    match cs with
    | a :: b :: rest =>
        if a == '1' && (b == '0' || b == '1' || b == '2') then
          [(10 + (b.toNat - 48), rest)]
        else if a == '0' && b.isDigit && b != '0' then
          [((b.toNat - 48), rest)]
        else []
    | _ => []
  let one :=
    match cs with
    | a :: rest => if a.isDigit && a != '0' then [((a.toNat - 48), rest)] else []
    | _ => []
  two ++ one

/-- strptime directive %y: exactly two digits. -/
def parseYear2 (cs : List Char) : Option (Nat × List Char) :=
  match cs with
  | a :: b :: rest =>
      if a.isDigit && b.isDigit then some (digitsToNat [a, b], rest) else none
  | _ => none

/-- strptime directive %Y: exactly four digits. -/
def parseYear4 (cs : List Char) : Option (Nat × List Char) :=
  match cs with
  | a :: b :: c :: d :: rest =>
      if a.isDigit && b.isDigit && c.isDigit && d.isDigit then
        some (digitsToNat [a, b, c, d], rest)
      else none
  | _ => none

/-- Gregorian leap-year rule, as the datetime module applies it. -/
def isLeapYear (y : Nat) : Bool :=
  y % 4 == 0 && (y % 100 != 0 || y % 400 == 0)

/-- Number of days of a month, as the datetime module validates it. -/
def daysInMonth (y m : Nat) : Nat :=
  if m == 2 then (if isLeapYear y then 29 else 28)
  else if m == 4 || m == 6 || m == 9 || m == 11 then 30
  else 31

/-- Validity check performed by constructing datetime(year, month, day):
the month and lower day bound are already enforced by the directives. -/
def validDate (y m d : Nat) : Bool :=
  1 ≤ y && y ≤ 9999 && d ≤ daysInMonth y m

/-- strptime against the format %b %d, %Y followed by the datetime
validity check; none models the ValueError branch. -/
def strptime_bdY (cs : List Char) : Option (Nat × Nat × Nat) :=
  (parseMonthAbbr cs).bind fun (m, r1) =>
  (parseWs1 r1).bind fun r2 =>
  firstSome (dayCandidates r2) fun (d, r3) =>
    match r3 with
    | ',' :: r4 =>
        (parseWs1 r4).bind fun r5 =>
        (parseYear4 r5).bind fun (y, r6) =>
          if r6.isEmpty && validDate y m d then some (y, m, d) else none
    | _ => none

/-- strptime against the format %b %d. With no year directive the year
defaults to 1900, except that Feb 29 defaults to the leap year 1904; the
caller then replaces the year with the current year, and that replacement
re-validates the day (datetime.replace), so the whole step fails when the
day does not exist in the current year. -/
def strptime_bd (currentYear : Nat) (cs : List Char) : Option (Nat × Nat × Nat) :=
  (parseMonthAbbr cs).bind fun (m, r1) =>
  (parseWs1 r1).bind fun r2 =>
  firstSome (dayCandidates r2) fun (d, r3) =>
    if r3.isEmpty then
      let defaultYear := if m == 2 && d == 29 then 1904 else 1900
      if validDate defaultYear m d && validDate currentYear m d then
        some (currentYear, m, d)
      else none
    else none

/-- strptime against the format %m/%d/%y followed by the two-digit-year
pivot (00-68 maps to 2000-2068, 69-99 to 1969-1999) and validation. -/
def strptime_mdy2 (cs : List Char) : Option (Nat × Nat × Nat) :=
  firstSome (monthCandidates cs) fun (m, r1) =>
    match r1 with
    | '/' :: r2 =>
        firstSome (dayCandidates r2) fun (d, r3) =>
          match r3 with
          | '/' :: r4 =>
              (parseYear2 r4).bind fun (y2, r5) =>
                let y := if y2 ≤ 68 then y2 + 2000 else y2 + 1900
                if r5.isEmpty && validDate y m d then some (y, m, d) else none
          | _ => none
    | _ => none

/-- strptime against the format %m/%d/%Y followed by validation. -/
def strptime_mdY4 (cs : List Char) : Option (Nat × Nat × Nat) :=
  firstSome (monthCandidates cs) fun (m, r1) =>
    match r1 with
    | '/' :: r2 =>
        firstSome (dayCandidates r2) fun (d, r3) =>
          match r3 with
          | '/' :: r4 =>
              (parseYear4 r4).bind fun (y, r5) =>
                if r5.isEmpty && validDate y m d then some (y, m, d) else none
          | _ => none
    | _ => none

/-- date.isoformat rendering YYYY-MM-DD. -/
def isoformat (ymd : Nat × Nat × Nat) : String :=
  padNum 4 ymd.1 ++ "-" ++ padNum 2 ymd.2.1 ++ "-" ++ padNum 2 ymd.2.2

/-- data_cleaner.normalize_date. A falsy (empty) input returns None; then
the four known formats are tried in order and the first success is
rendered as ISO; if every format fails the input is returned unchanged.
The current year, read from the clock in Python, is a parameter. -/
def normalize_date (currentYear : Nat) (date_str : String) : Option String :=
  if date_str == "" then none
  else
    match strptime_bdY date_str.toList with
    | some ymd => some (isoformat ymd)
    | none =>
      match strptime_bd currentYear date_str.toList with
      | some ymd => some (isoformat ymd)
      | none =>
        match strptime_mdy2 date_str.toList with
        | some ymd => some (isoformat ymd)
        | none =>
          match strptime_mdY4 date_str.toList with
          | some ymd => some (isoformat ymd)
          | none => some date_str

end DataCleaner

/-! ## src/scraper/fuzzy_matcher.py -/

namespace FuzzyMatcher

/-- The generational suffixes stripped by normalize_name, lowercased. -/
def genSuffixes : List String := ["jr", "sr", "iii", "iv", "v"]

/-- The regex substitution that deletes a trailing generational suffix:
one or more whitespace characters, one of the suffix words
case-insensitively, an optional trailing dot, all anchored at the end of
the string (fuzzy_matcher.py line 9). -/
def stripGenSuffix (s : String) : String :=
  let r := s.toList.reverse
  let hasDot := r.head? == some '.'
  let r1 := if hasDot then r.tail else r
  let tryWord : String → Option (List Char) := fun w =>
    let wr := w.toList.reverse
    if listStartsWith wr (r1.map Char.toLower) then
      let rest := r1.drop wr.length
      if rest.head?.elim false Char.isWhitespace then
        some ((rest.dropWhile Char.isWhitespace).reverse)
      else none
    else none
  match firstSome genSuffixes tryWord with
  | some pre => String.mk pre
  | none => s

/-- fuzzy_matcher.normalize_name: drop a generational suffix, collapse a
name of more than two whitespace-separated parts to its first and last
part, delete every character that is not a letter or whitespace, then
lowercase and strip. -/
def normalize_name (name : String) : String :=
  if name == "" then ""
  else
    let n1 := stripGenSuffix name
    let parts := Scraper.pySplitWs n1
    let n2 :=
      if parts.length > 2 then
        (parts.head?.getD "") ++ " " ++ (parts.getLast?.getD "")
      else n1
    Scraper.pyStrip (Scraper.pyLower (String.mk (n2.toList.filter
      (fun c => c.isAlpha || c.isWhitespace))))

/-- fuzzy_matcher.names_match: equality of normalized names, or equal
last tokens with first tokens sharing their first character when both
normalized names split into exactly two tokens. -/
def names_match (name1 name2 : String) : Bool :=
  let norm1 := normalize_name name1
  let norm2 := normalize_name name2
  if norm1 == norm2 then true
  else
    match Scraper.pySplitWs norm1, Scraper.pySplitWs norm2 with
    | [f1, l1], [f2, l2] => l1 == l2 && f1.front == f2.front
    | _, _ => false

end FuzzyMatcher

/-! ## src/scraper/find_player_url.py -/

namespace FindPlayerUrl

/-- One roster card, as the configured CSS selectors see it: the text of
the selected name element, the text of the selected number element, and
the href that the link resolution chain (player-link selector, parent
anchor, descendant anchor) yields, when each exists. -/
structure RosterCard where
  name_text : Option String
  number_text : Option String
  link_href : Option String
  deriving DecidableEq, Repr

/-- find_player_url.normalize_name: lowercase, strip, and collapse each
whitespace run to one space. -/
def normalize_name (name : String) : String :=
  collapseWs (pyStrip (pyLower name))

/-- Python str.rsplit on a slash with one split, first component: the
prefix before the last slash, or the whole string when it has none. -/
def dropAfterLastSlash (s : String) : String :=
  if s.toList.contains '/' then
    String.mk (((s.toList.reverse.dropWhile (fun c => c != '/')).drop 1).reverse)
  else s

/-- Resolution of a card link to an absolute URL (find_player_url.py
lines 92-97). -/
def resolve_player_url (href domain roster_url : String) : String :=
  if pyStartsWith href "/" then "https://" ++ domain ++ href
  else if !(pyStartsWith href "http") then
    dropAfterLastSlash roster_url ++ "/" ++ href
  else href

/-- The candidate scan of find_player_url (lines 67-99): skip cards with
no name element; accept the first card whose normalized name contains or
is contained in the normalized query name and whose trimmed number text
equals the trimmed query jersey string, provided a link href resolves;
otherwise keep scanning. -/
def fpu_loop (normalized_player jersey_str domain roster_url platform_type : String) :
    List RosterCard → Except String (String × String)
  | [] =>
      .error ("Player not found on " ++ roster_url ++ " roster. Check spelling and number.")
  | card :: rest =>
      match card.name_text with
      | none => fpu_loop normalized_player jersey_str domain roster_url platform_type rest
      | some nt =>
          let card_name := normalize_name nt
          let card_number := (card.number_text.map pyStrip).getD ""
          let name_match := substrB normalized_player card_name || substrB card_name normalized_player
          let number_match := jersey_str == card_number
          if name_match && number_match then
            match card.link_href with
            | some href =>
                .ok (resolve_player_url href domain roster_url, platform_type)
            | none => fpu_loop normalized_player jersey_str domain roster_url platform_type rest
          else fpu_loop normalized_player jersey_str domain roster_url platform_type rest

/-- find_player_url, given the roster cards its selector query returned
together with the school domain, roster URL and resolved platform type.
An empty card list and an exhausted scan each raise ValueError. -/
def find_player_url (player_name jersey_number domain roster_url platform_type : String)
    (cards : List RosterCard) : Except String (String × String) :=
  if cards.isEmpty then
    .error ("No players found on roster page " ++ roster_url ++ ".")
  else
    fpu_loop (normalize_name player_name) (pyStrip jersey_number)
      domain roster_url platform_type cards

end FindPlayerUrl

/-! ## src/scraper/platform_detector.py -/

namespace PlatformDetector

/-- Characters urllib.parse allows in a URL scheme after its first
letter. -/
def isSchemeChar (c : Char) : Bool :=
  c.isAlpha || c.isDigit || c == '+' || c == '-' || c == '.'

/-- The remainder of a URL after urlsplit removes a valid scheme prefix:
a first colon preceded only by scheme characters starting with a letter. -/
def stripScheme (cs : List Char) : List Char :=
  let pre := cs.takeWhile (fun c => c != ':')
  if pre.length < cs.length ∧ pre ≠ [] ∧
      (pre.head?.elim false Char.isAlpha) ∧ pre.all isSchemeChar then
    cs.drop (pre.length + 1)
  else cs

/-- urlparse(url).netloc: present only after a double slash, extending to
the next slash, question mark or hash. -/
def url_netloc (url : String) : String :=
  let rest := stripScheme url.toList
  match rest with
  | '/' :: '/' :: tail =>
      String.mk (tail.takeWhile (fun c => c != '/' && c != '?' && c != '#'))
  | _ => ""

/-- urlparse(url).path: what follows the netloc, up to a question mark or
hash. -/
def url_path (url : String) : String :=
  let rest := stripScheme url.toList
  let afterNetloc :=
    match rest with
    | '/' :: '/' :: tail => tail.dropWhile (fun c => c != '/' && c != '?' && c != '#')
    | _ => rest
  String.mk (afterNetloc.takeWhile (fun c => c != '?' && c != '#'))

/-- The PLATFORMS table of platform_detector.py, in its insertion
order. -/
def PLATFORMS : List (String × List String) :=
  [("sidearm", ["sidearmsports.com", "sidearmstats.com", "asics.com"]),
   ("presto", ["prestosports.com", "presto-stats.com"]),
   ("genius", ["geniussports.com", "ncaa.org"]),
   ("statbroadcast", ["statbroadcast.com"]),
   ("ncaa", ["ncaa.com", "ncaa.org"]),
   ("stretch", ["stretchinternet.com", "hudl.com"]),
   ("wmt", ["wmt.digital"]),
   ("revel", ["revelxp.com"]),
   ("d3sports", ["d3baseball.com", "d3sports.com"])]

/-- The HTML signature scan of platform_detector.detect_platform (lines
32-45), returning the first matching vendor, on the lowercased HTML. -/
def htmlSignature (hl : String) : Option String :=
  if substrB "sidearm sports" hl || substrB "sidearmstats" hl then some "sidearm"
  else if substrB "prestosports" hl || substrB "presto stats" hl then some "presto"
  else if substrB "genius sports" hl then some "genius"
  else if substrB "wmt digital" hl then some "wmt"
  else if substrB "stretch internet" hl then some "stretch"
  else if substrB "statbroadcast" hl then some "statbroadcast"
  else none

/-- platform_detector.detect_platform: first platform whose domain
pattern occurs in the lowercased netloc; otherwise the HTML signature
scan when HTML is given (an absent or empty HTML string is falsy);
otherwise the URL path patterns; otherwise generic. -/
def detect_platform (url : String) (html : Option String) : String :=
  let domain := pyLower (url_netloc url)
  match PLATFORMS.find? (fun pr => pr.2.any (fun pat => substrB pat domain)) with
  | some pr => pr.1
  | none =>
    let fromHtml :=
      match html with
      | some h => if h == "" then none else htmlSignature (pyLower h)
      | none => none
    match fromHtml with
    | some p => p
    | none =>
      let path := pyLower (url_path url)
      if substrB "/sidearmstats/" path then "sidearm"
      else if substrB "/stats/" path && substrB "ncaa" domain then "ncaa"
      else "generic"

end PlatformDetector

/-! ## src/scraper/config.py -/

namespace Config

/-- The PLATFORM_DOMAINS table of config.py, in its insertion order; its
first entry deliberately lists the bare pattern .com. -/
def PLATFORM_DOMAINS : List (String × List String) :=
  [("sidearm", ["sidearmdev", "sidearmsports", ".com"]),
   ("prestosports", ["prestosports.com", "prestosports"]),
   ("ncaa", ["ncaa.com"])]

/-- config.detect_platform: first platform one of whose patterns occurs
in the lowercased domain, else generic. Unlike the platform_detector
variant it receives a bare domain and no HTML. -/
def detect_platform (domain : String) : String :=
  match PLATFORM_DOMAINS.find?
      (fun pr => pr.2.any (fun pat => substrB pat (pyLower domain))) with
  | some pr => pr.1
  | none => "generic"

end Config

/-! ## src/scraper/parse_game_log.py -/

namespace ParseGameLog

/-- One table cell: whether it is a th element, and its text. -/
structure SCell where
  is_th : Bool
  text : String
  deriving DecidableEq, Repr

/-- One HTML table as BeautifulSoup sees it: its class attribute tokens
and its tr rows, each a list of cells in document order. -/
structure STable where
  cls : List String
  rows : List (List SCell)
  deriving DecidableEq, Repr

/-- table.find_all of th followed by get_text().strip(): every header
cell of the table in document order, trimmed. -/
def table_headers (t : STable) : List String :=
  t.rows.foldr (fun r acc =>
    ((r.filter (fun c => c.is_th)).map (fun c => pyStrip c.text)) ++ acc) []

/-- row.find_all of td followed by get_text().strip(): the data cells of
one row, trimmed. -/
def row_tds (r : List SCell) : List String :=
  (r.filter (fun c => !c.is_th)).map (fun c => pyStrip c.text)

/-- The game_data dictionary built from a header list and a cell list:
for each header index below the cell count, assign that cell to that
header (parse_game_log.py lines 90-93). -/
def build_game_data (headers cells : List String) : List (String × String) :=
  (headers.zip cells).foldl (fun d p => dict_insert d p.1 p.2) []

/-- Row handling of parse_sidearm_game_log (lines 85-97): at least three
data cells, and a Date entry that is non-empty and free of the token
Total. -/
def sidearm_row? (headers : List String) (r : List SCell) :
    Option (List (String × String)) :=
  let cells := row_tds r
  if cells.length < 3 then none
  else
    let game_data := build_game_data headers cells
    match dict_get? game_data "Date" with
    | some d => if d != "" && !(substrB "Total" d) then some game_data else none
    | none => none

/-- Table scan of parse_sidearm_game_log (lines 75-97): tables whose
header cells include Date and Opponent contribute their rows after the
first. -/
def sidearm_collect (tables : List STable) : List (List (String × String)) :=
  tables.flatMap (fun t =>
    let headers := table_headers t
    if headers.contains "Date" && headers.contains "Opponent" then
      (t.rows.drop 1).filterMap (sidearm_row? headers)
    else [])

/-- parse_sidearm_game_log, with the Selenium navigation outcome made
explicit: a failed stats-tab click raises, and an empty harvest raises. -/
def parse_sidearm_game_log (stats_tab_ok : Bool) (tables : List STable) :
    Except String (List (List (String × String))) :=
  if !stats_tab_ok then
    .error "Could not find or click Stats tab on SIDEARM page"
  else
    let game_log := sidearm_collect tables
    if game_log.isEmpty then
      .error "No game log data found on SIDEARM page"
    else .ok game_log

/-- Row handling of parse_prestosports_game_log (lines 133-144): at
least three data cells and a non-empty Date entry, with no Total
filter. -/
def presto_row? (headers : List String) (r : List SCell) :
    Option (List (String × String)) :=
  let cells := row_tds r
  if cells.length < 3 then none
  else
    let game_data := build_game_data headers cells
    match dict_get? game_data "Date" with
    | some d => if d != "" then some game_data else none
    | none => none

/-- Table scan of parse_prestosports_game_log (lines 125-144): tables
with a class containing stats whose header cells include Date or
Opponent. -/
def presto_collect (tables : List STable) : List (List (String × String)) :=
  tables.flatMap (fun t =>
    if t.cls.any (fun c => substrB "stats" (pyLower c)) then
      let headers := table_headers t
      if headers.contains "Date" || headers.contains "Opponent" then
        (t.rows.drop 1).filterMap (presto_row? headers)
      else []
    else [])

/-- Row handling of parse_generic_game_log (lines 170-179): at least
three data cells and a non-empty dictionary; no date requirement and no
Total filter. -/
def generic_row? (headers : List String) (r : List SCell) :
    Option (List (String × String)) :=
  let cells := row_tds r
  if cells.length ≥ 3 then
    let game_data := build_game_data headers cells
    if game_data.isEmpty then none else some game_data
  else none

/-- Table scan of parse_generic_game_log (lines 161-179): every table
whose space-joined lowercased header text contains date, opponent or
game. -/
def generic_collect (tables : List STable) : List (List (String × String)) :=
  tables.flatMap (fun t =>
    let headers := table_headers t
    if ["date", "opponent", "game"].any
        (fun kw => substrB kw (pyLower (String.intercalate " " headers))) then
      (t.rows.drop 1).filterMap (generic_row? headers)
    else [])

/-- The rendered player page: the outcome of the sidearm stats-tab
navigation and the tables of the page. -/
structure GamePage where
  stats_tab_ok : Bool
  tables : List STable
  deriving Repr

/-- The Selenium driver environment of one parse_game_log call: what
driver.get delivers for the player URL, an error modelling a raised
navigation failure. -/
structure DriverEnv where
  fetch : Except String GamePage

/-- parse_sidearm_game_log including its page load. -/
def parse_sidearm_m (env : DriverEnv) : Except String (List (List (String × String))) :=
  match env.fetch with
  | .error e => .error e
  | .ok p => parse_sidearm_game_log p.stats_tab_ok p.tables

/-- parse_prestosports_game_log including its page load; the table scan
itself never raises. -/
def parse_presto_m (env : DriverEnv) : Except String (List (List (String × String))) :=
  match env.fetch with
  | .error e => .error e
  | .ok p => .ok (presto_collect p.tables)

/-- parse_generic_game_log including its page load; the table scan
itself never raises. -/
def parse_generic_m (env : DriverEnv) : Except String (List (List (String × String))) :=
  match env.fetch with
  | .error e => .error e
  | .ok p => .ok (generic_collect p.tables)

/-- The platform routing of parse_game_log (lines 200-206). -/
def platform_route (platform_type : String) (env : DriverEnv) :
    Except String (List (List (String × String))) :=
  if platform_type == "sidearm" then parse_sidearm_m env
  else if platform_type == "prestosports" then parse_presto_m env
  else parse_generic_m env

/-- parse_game_log (lines 184-223): run the routed parser; on an
exception retry with the generic parser unless the platform already is
generic; if that retry raises too, or the platform was generic, surface
a ValueError naming the original failure. -/
def parse_game_log (platform_type : String) (env : DriverEnv) :
    Except String (List (List (String × String))) :=
  match platform_route platform_type env with
  | .ok game_log => .ok game_log
  | .error e =>
      if platform_type != "generic" then
        match parse_generic_m env with
        | .ok game_log => .ok game_log
        | .error _ => .error ("Failed to parse game log: " ++ e)
      else .error ("Failed to parse game log: " ++ e)

end ParseGameLog

/-! ## src/scraper/box_score_scraper.py -/

namespace BoxScore

open ParseGameLog DataCleaner

/-- Table selection of parse_box_score (lines 25-33): class-restricted
for sidearm and presto, every table otherwise. -/
def select_box_tables (platform : String) (tables : List STable) : List STable :=
  if platform == "sidearm" then
    tables.filter (fun t =>
      t.cls.contains "sidearm-table" || t.cls.contains "box-score-table")
  else if platform == "presto" then
    tables.filter (fun t =>
      t.cls.contains "stats-table" || t.cls.contains "linescore")
  else tables

/-- Headers of a box-score table: every th text, trimmed and
lowercased. -/
def box_headers (t : STable) : List String :=
  (table_headers t).map pyLower

/-- Whether a table looks like a player-stats table (line 40). -/
def box_table_accepted (t : STable) : Bool :=
  ["player", "name", "ab", "r", "h", "rbi"].any
    (fun h => (box_headers t).contains h)

/-- row.find_all of td and th: every cell text of the row, trimmed. -/
def row_all_cells (r : List SCell) : List String :=
  r.map (fun c => pyStrip c.text)

/-- The player_data dictionary (lines 46-51): every cell whose index has
a header is stored under that lowercased header after
clean_stat_value. -/
def build_player_data (headers cells : List String) : List (String × PyNum) :=
  (headers.zip cells).foldl
    (fun d p => dict_insert d p.1 (clean_stat_value (some p.2))) []

/-- Row handling of parse_box_score (lines 43-54): at least two cells
and a non-empty dictionary. -/
def box_row? (headers : List String) (r : List SCell) :
    Option (List (String × PyNum)) :=
  let cells := row_all_cells r
  if cells.length ≥ 2 then
    let player_data := build_player_data headers cells
    if player_data.isEmpty then none else some player_data
  else none

/-- box_score_scraper.parse_box_score over the selected tables. -/
def parse_box_score (platform : String) (tables : List STable) :
    List (List (String × PyNum)) :=
  (select_box_tables platform tables).flatMap (fun t =>
    if box_table_accepted t then
      (t.rows.drop 1).filterMap (box_row? (box_headers t))
    else [])

end BoxScore

/-! ## src/base44_integration.py -/

namespace Base44

/-- The outcome of one player iteration of run_sync, as the source
distinguishes them: validation failure on required keys, an exception
raised inside the per-player try block, a result without games, a push
that returned False (with fallback save), or a successful push. -/
inductive SyncOutcome where
  | missingKeys
  | scrapeRaised
  | noGames
  | pushFailed
  | pushSucceeded
  deriving DecidableEq, Repr

/-- Modelled from the spec: the intended per-player loop of run_sync
(src/base44_integration.py lines 165-235). The call into the stats
pipeline there is syntactically malformed (the parenthesis opened at
season=str(player.get("season", "2026", on line 204 is never closed), so
the module cannot be imported and the loop as written cannot run; this
definition keeps the surrounding, well-formed control flow and abstracts
each player iteration by its outcome: a successful push increments
success_count, every other outcome increments error_count, and the
summary carries success_count, error_count and the player count. -/
def run_sync (players : List SyncOutcome) : Nat × Nat × Nat :=
  let counts := players.foldl
    (fun (acc : Nat × Nat) o =>
      match o with
      | .pushSucceeded => (acc.1 + 1, acc.2)
      | _ => (acc.1, acc.2 + 1))
    (0, 0)
  (counts.1, counts.2, players.length)

end Base44

/-- Keys of the PLATFORMS table together with the HTML-scan, path-scan
and default identifiers: everything detect_platform can return. -/
def detectablePlatforms : List String :=
  ["sidearm", "presto", "genius", "statbroadcast", "ncaa",
   "stretch", "wmt", "revel", "d3sports", "generic"]

end Scraper

namespace Scraper

/-- Accounting step of the run_sync fold: one unit per player. -/
theorem run_sync_foldl_counts (players : List Base44.SyncOutcome) :
    ∀ s e : Nat,
      ((players.foldl
        (fun (acc : Nat × Nat) o =>
          match o with
          | .pushSucceeded => (acc.1 + 1, acc.2)
          | _ => (acc.1, acc.2 + 1))
        (s, e)).1 +
       (players.foldl
        (fun (acc : Nat × Nat) o =>
          match o with
          | .pushSucceeded => (acc.1 + 1, acc.2)
          | _ => (acc.1, acc.2 + 1))
        (s, e)).2) = s + e + players.length := by
  induction players with
  | nil => intro s e; simp
  | cons p ps ih =>
      intro s e
      cases p <;> simp [List.foldl_cons, ih] <;> omega

/-- C6: for every input sequence of player outcomes, the modelled sync
cycle is a total function whose summary satisfies
success_count + error_count = total = number of input players; each
player contributes exactly one unit to one of the two counters. -/
theorem run_sync_accounting (players : List Base44.SyncOutcome) :
    (Base44.run_sync players).1 + (Base44.run_sync players).2.1 =
      (Base44.run_sync players).2.2 ∧
    (Base44.run_sync players).2.2 = players.length := by
  refine ⟨?_, rfl⟩
  have h := run_sync_foldl_counts players 0 0
  simpa [Base44.run_sync] using h

/-- C7 counterexample: the empty string matches no known date format,
yet normalize_date returns None on it rather than the input unchanged. -/
theorem normalize_date_empty_not_unchanged :
    DataCleaner.normalize_date 2026 "" = none ∧
    DataCleaner.normalize_date 2026 "" ≠ some "" := by
  exact ⟨rfl, by decide⟩

/-- C7 (amended): normalize_date renders the first matching format of
the ordered list (month-name-comma-year, month-name-day with the current
year substituted, M/D/YY, M/D/YYYY) as ISO YYYY-MM-DD, returns every
NON-EMPTY unmatched string unchanged, and returns None on the empty
(falsy) input; in particular "Feb 15, 2026" and "2/15/26" both render as
2026-02-15 and "garbage" is returned unchanged. -/
theorem normalize_date_spec :
    (∀ y : Nat, DataCleaner.normalize_date y "Feb 15, 2026" = some "2026-02-15") ∧
    (∀ y : Nat, DataCleaner.normalize_date y "2/15/26" = some "2026-02-15") ∧
    (∀ y : Nat, DataCleaner.normalize_date y "garbage" = some "garbage") ∧
    (∀ (y : Nat) (s : String), s ≠ "" →
      ∀ r, DataCleaner.strptime_bdY s.toList = some r →
        DataCleaner.normalize_date y s = some (DataCleaner.isoformat r)) ∧
    (∀ (y : Nat) (s : String), s ≠ "" →
      DataCleaner.strptime_bdY s.toList = none →
      ∀ r, DataCleaner.strptime_bd y s.toList = some r →
        DataCleaner.normalize_date y s = some (DataCleaner.isoformat r)) ∧
    (∀ (y : Nat) (s : String), s ≠ "" →
      DataCleaner.strptime_bdY s.toList = none →
      DataCleaner.strptime_bd y s.toList = none →
      ∀ r, DataCleaner.strptime_mdy2 s.toList = some r →
        DataCleaner.normalize_date y s = some (DataCleaner.isoformat r)) ∧
    (∀ (y : Nat) (s : String), s ≠ "" →
      DataCleaner.strptime_bdY s.toList = none →
      DataCleaner.strptime_bd y s.toList = none →
      DataCleaner.strptime_mdy2 s.toList = none →
      ∀ r, DataCleaner.strptime_mdY4 s.toList = some r →
        DataCleaner.normalize_date y s = some (DataCleaner.isoformat r)) ∧
    (∀ (y : Nat) (s : String), s ≠ "" →
      DataCleaner.strptime_bdY s.toList = none →
      DataCleaner.strptime_bd y s.toList = none →
      DataCleaner.strptime_mdy2 s.toList = none →
      DataCleaner.strptime_mdY4 s.toList = none →
      DataCleaner.normalize_date y s = some s) := by
  refine ⟨fun y => rfl, fun y => rfl, fun y => rfl, ?_, ?_, ?_, ?_, ?_⟩
  · intro y s hs r h1
    have hb : (s == "") = false := beq_eq_false_iff_ne.mpr hs
    simp only [String.toList] at h1
    simp [DataCleaner.normalize_date, hb, h1]
  · intro y s hs h1 r h2
    have hb : (s == "") = false := beq_eq_false_iff_ne.mpr hs
    simp only [String.toList] at h1 h2
    simp [DataCleaner.normalize_date, hb, h1, h2]
  · intro y s hs h1 h2 r h3
    have hb : (s == "") = false := beq_eq_false_iff_ne.mpr hs
    simp only [String.toList] at h1 h2 h3
    simp [DataCleaner.normalize_date, hb, h1, h2, h3]
  · intro y s hs h1 h2 h3 r h4
    have hb : (s == "") = false := beq_eq_false_iff_ne.mpr hs
    simp only [String.toList] at h1 h2 h3 h4
    simp [DataCleaner.normalize_date, hb, h1, h2, h3, h4]
  · intro y s hs h1 h2 h3 h4
    have hb : (s == "") = false := beq_eq_false_iff_ne.mpr hs
    simp only [String.toList] at h1 h2 h3 h4
    simp [DataCleaner.normalize_date, hb, h1, h2, h3, h4]

/-- C7 witness: the theorem applied to the year 2026 and the unmatched
non-empty input "garbage day", which is returned unchanged. -/
theorem normalize_date_spec_witness :
    DataCleaner.normalize_date 2026 "garbage day" = some "garbage day" := by
  exact normalize_date_spec.2.2.2.2.2.2.2 2026 "garbage day"
    (by decide) (by decide) (by decide) (by decide) (by decide)

/-- C8: clean_stat_value is a total function; None, the empty string and
the bare dash map to the float 0.0; otherwise the text stripped to the
digits-dot-minus alphabet yields a float whenever it contains a decimal
point (its parsed value, or 0.0 on a parse failure) and otherwise an
integer on parse success or the float 0.0 on parse failure. -/
theorem clean_stat_value_spec (s : String) (h1 : s ≠ "") (h2 : s ≠ "-") :
    DataCleaner.clean_stat_value none = .pyFloat 0 ∧
    DataCleaner.clean_stat_value (some "") = .pyFloat 0 ∧
    DataCleaner.clean_stat_value (some "-") = .pyFloat 0 ∧
    (substrB "." (DataCleaner.strip_non_numeric s) = true →
      (∃ q, DataCleaner.py_float_of_string? (DataCleaner.strip_non_numeric s) = some q ∧
            DataCleaner.clean_stat_value (some s) = .pyFloat q) ∨
      (DataCleaner.py_float_of_string? (DataCleaner.strip_non_numeric s) = none ∧
       DataCleaner.clean_stat_value (some s) = .pyFloat 0)) ∧
    (substrB "." (DataCleaner.strip_non_numeric s) = false →
      (∃ n, DataCleaner.py_int_of_string? (DataCleaner.strip_non_numeric s) = some n ∧
            DataCleaner.clean_stat_value (some s) = .pyInt n) ∨
      (DataCleaner.py_int_of_string? (DataCleaner.strip_non_numeric s) = none ∧
       DataCleaner.clean_stat_value (some s) = .pyFloat 0)) := by
  have hb1 : (s == "") = false := beq_eq_false_iff_ne.mpr h1
  have hb2 : (s == "-") = false := beq_eq_false_iff_ne.mpr h2
  refine ⟨rfl, rfl, rfl, ?_, ?_⟩
  · intro hdot
    cases hq : DataCleaner.py_float_of_string? (DataCleaner.strip_non_numeric s) with
    | some q =>
        left
        exact ⟨q, rfl, by simp [DataCleaner.clean_stat_value, hb1, hb2, hdot, hq]⟩
    | none =>
        right
        exact ⟨rfl, by simp [DataCleaner.clean_stat_value, hb1, hb2, hdot, hq]⟩
  · intro hdot
    cases hn : DataCleaner.py_int_of_string? (DataCleaner.strip_non_numeric s) with
    | some n =>
        left
        exact ⟨n, rfl, by simp [DataCleaner.clean_stat_value, hb1, hb2, hdot, hn]⟩
    | none =>
        right
        exact ⟨rfl, by simp [DataCleaner.clean_stat_value, hb1, hb2, hdot, hn]⟩

/-- C8 witness: the theorem applied to the input "7 runs", whose
stripped text has no decimal point and parses as the integer 7. -/
theorem clean_stat_value_spec_witness :
    (∃ n, DataCleaner.py_int_of_string? (DataCleaner.strip_non_numeric "7 runs") = some n ∧
          DataCleaner.clean_stat_value (some "7 runs") = .pyInt n) ∨
    (DataCleaner.py_int_of_string? (DataCleaner.strip_non_numeric "7 runs") = none ∧
     DataCleaner.clean_stat_value (some "7 runs") = .pyFloat 0) := by
  exact (clean_stat_value_spec "7 runs" (by decide) (by decide)).2.2.2.2 (by decide)

/-- C5: parse_game_log surfaces an error only when the routed
platform-specific path and the generic path both fail, and whenever the
routed path fails but the generic parser succeeds its result is returned
instead of the failure. -/
theorem parse_game_log_generic_fallback (platform_type : String)
    (env : ParseGameLog.DriverEnv) :
    (∀ e, ParseGameLog.parse_game_log platform_type env = .error e →
      (∃ e1, ParseGameLog.platform_route platform_type env = .error e1) ∧
      (∃ e2, ParseGameLog.parse_generic_m env = .error e2)) ∧
    (∀ e g, ParseGameLog.platform_route platform_type env = .error e →
      ParseGameLog.parse_generic_m env = .ok g →
      ParseGameLog.parse_game_log platform_type env = .ok g) := by
  cases hroute : ParseGameLog.platform_route platform_type env with
  | ok g0 =>
      have hres : ParseGameLog.parse_game_log platform_type env = .ok g0 := by
        simp [ParseGameLog.parse_game_log, hroute]
      constructor
      · intro e he
        rw [hres] at he
        exact Except.noConfusion he
      · intro e g h1 h2
        exact Except.noConfusion h1
  | error e0 =>
      by_cases hplat : platform_type = "generic"
      · subst hplat
        have hgen : ParseGameLog.parse_generic_m env = .error e0 := by
          rw [← hroute]; rfl
        refine ⟨fun e he => ⟨⟨e0, rfl⟩, ⟨e0, hgen⟩⟩, fun e g h1 h2 => ?_⟩
        rw [hgen] at h2
        exact Except.noConfusion h2
      · have hb : (platform_type != "generic") = true := by
          simp [hplat]
        cases hgen : ParseGameLog.parse_generic_m env with
        | ok g1 =>
            have hres : ParseGameLog.parse_game_log platform_type env = .ok g1 := by
              simp [ParseGameLog.parse_game_log, hroute, hb, hgen]
            constructor
            · intro e he
              rw [hres] at he
              exact Except.noConfusion he
            · intro e g h1 h2
              injection h2 with h2'
              rw [hres, h2']
        | error e2 =>
            constructor
            · intro e he
              exact ⟨⟨e0, rfl⟩, ⟨e2, rfl⟩⟩
            · intro e g h1 h2
              exact Except.noConfusion h2

/-- C5 witness: a sidearm page whose stats tab cannot be clicked makes
the sidearm parser raise; the generic parser succeeds on the same page
and parse_game_log returns its (empty) harvest instead of failing. -/
theorem parse_game_log_generic_fallback_witness :
    ParseGameLog.parse_game_log "sidearm" ⟨.ok ⟨false, []⟩⟩ = .ok [] := by
  exact (parse_game_log_generic_fallback "sidearm" ⟨.ok ⟨false, []⟩⟩).2
    "Could not find or click Stats tab on SIDEARM page" [] rfl rfl

/-- C2 counterexample: on a game-log table whose data row is the season
total, the generic parser of the fallback chain emits that row as a
record whose Date field is the literal Total. -/
theorem generic_parser_emits_total_row :
    ParseGameLog.parse_game_log "generic"
      ⟨.ok ⟨true, [⟨[], [[⟨true, "Date"⟩, ⟨true, "Opponent"⟩, ⟨true, "AB"⟩],
                         [⟨false, "Total"⟩, ⟨false, ""⟩, ⟨false, "40"⟩]]⟩]⟩⟩ =
      .ok [[("Date", "Total"), ("Opponent", ""), ("AB", "40")]] ∧
    dict_get? [("Date", "Total"), ("Opponent", ""), ("AB", "40")] "Date" =
      some "Total" := by
  exact ⟨rfl, rfl⟩

/-- C1 counterexample: the roster scan accepts the card Charlie Davis for
the query name Davis with matching jersey 8 through substring
containment, although names_match rejects that pair of names. -/
theorem find_player_url_accepts_without_names_match :
    FindPlayerUrl.find_player_url "Davis" "8" "belmontbruins.com"
      "https://belmontbruins.com/sports/baseball/roster" "sidearm"
      [⟨some "Charlie Davis", some "8", some "/roster/charlie-davis"⟩] =
      .ok ("https://belmontbruins.com/roster/charlie-davis", "sidearm") ∧
    FuzzyMatcher.names_match "Davis" "Charlie Davis" = false := by
  exact ⟨rfl, by decide⟩

/-- C2 (amended): every parser of the fallback chain emits a record only
from a data row with at least three data cells; the sidearm parser
additionally guarantees a Date field that is non-empty and free of the
token Total and the prestosports parser a non-empty Date field, but the
generic fallback guarantees only a non-empty field mapping, so a
season-total row can be emitted by the generic parser. -/
theorem game_log_row_filters (tables : List ParseGameLog.STable)
    (rec : List (String × String)) :
    (rec ∈ ParseGameLog.sidearm_collect tables →
      (∃ d, dict_get? rec "Date" = some d ∧ d ≠ "" ∧ substrB "Total" d = false) ∧
      ∃ t ∈ tables, ∃ r ∈ t.rows.drop 1, 3 ≤ (ParseGameLog.row_tds r).length ∧
        rec = ParseGameLog.build_game_data (ParseGameLog.table_headers t)
          (ParseGameLog.row_tds r)) ∧
    (rec ∈ ParseGameLog.presto_collect tables →
      (∃ d, dict_get? rec "Date" = some d ∧ d ≠ "") ∧
      ∃ t ∈ tables, ∃ r ∈ t.rows.drop 1, 3 ≤ (ParseGameLog.row_tds r).length ∧
        rec = ParseGameLog.build_game_data (ParseGameLog.table_headers t)
          (ParseGameLog.row_tds r)) ∧
    (rec ∈ ParseGameLog.generic_collect tables →
      rec ≠ [] ∧
      ∃ t ∈ tables, ∃ r ∈ t.rows.drop 1, 3 ≤ (ParseGameLog.row_tds r).length ∧
        rec = ParseGameLog.build_game_data (ParseGameLog.table_headers t)
          (ParseGameLog.row_tds r)) := by
  refine ⟨?_, ?_, ?_⟩
  · intro hmem
    obtain ⟨t, ht, hm⟩ := List.mem_flatMap.mp hmem
    dsimp only at hm
    by_cases hcond : ((ParseGameLog.table_headers t).contains "Date" &&
        (ParseGameLog.table_headers t).contains "Opponent") = true
    · rw [if_pos hcond] at hm
      obtain ⟨r, hr, hf⟩ := List.mem_filterMap.mp hm
      unfold ParseGameLog.sidearm_row? at hf
      dsimp only at hf
      by_cases hlen : (ParseGameLog.row_tds r).length < 3
      · rw [if_pos hlen] at hf
        exact Option.noConfusion hf
      · rw [if_neg hlen] at hf
        cases hd : dict_get? (ParseGameLog.build_game_data
            (ParseGameLog.table_headers t) (ParseGameLog.row_tds r)) "Date" with
        | none => rw [hd] at hf; exact Option.noConfusion hf
        | some d =>
            rw [hd] at hf
            dsimp only at hf
            by_cases hdc : (d != "" && !substrB "Total" d) = true
            · rw [if_pos hdc] at hf
              injection hf with hf'
              subst hf'
              rw [Bool.and_eq_true] at hdc
              obtain ⟨h1, h2⟩ := hdc
              refine ⟨⟨d, hd, ?_, ?_⟩, t, ht, r, hr, by omega, rfl⟩
              · exact bne_iff_ne.mp h1
              · rw [Bool.not_eq_eq_eq_not] at h2
                exact h2
            · rw [if_neg hdc] at hf
              exact Option.noConfusion hf
    · rw [if_neg hcond] at hm
      exact absurd hm (List.not_mem_nil rec)
  · intro hmem
    obtain ⟨t, ht, hm⟩ := List.mem_flatMap.mp hmem
    dsimp only at hm
    by_cases hcls : (t.cls.any (fun c => substrB "stats" (pyLower c))) = true
    · rw [if_pos hcls] at hm
      by_cases hcond : ((ParseGameLog.table_headers t).contains "Date" ||
          (ParseGameLog.table_headers t).contains "Opponent") = true
      · rw [if_pos hcond] at hm
        obtain ⟨r, hr, hf⟩ := List.mem_filterMap.mp hm
        unfold ParseGameLog.presto_row? at hf
        dsimp only at hf
        by_cases hlen : (ParseGameLog.row_tds r).length < 3
        · rw [if_pos hlen] at hf
          exact Option.noConfusion hf
        · rw [if_neg hlen] at hf
          cases hd : dict_get? (ParseGameLog.build_game_data
              (ParseGameLog.table_headers t) (ParseGameLog.row_tds r)) "Date" with
          | none => rw [hd] at hf; exact Option.noConfusion hf
          | some d =>
              rw [hd] at hf
              dsimp only at hf
              by_cases hdc : (d != "") = true
              · rw [if_pos hdc] at hf
                injection hf with hf'
                subst hf'
                exact ⟨⟨d, hd, bne_iff_ne.mp hdc⟩, t, ht, r, hr, by omega, rfl⟩
              · rw [if_neg hdc] at hf
                exact Option.noConfusion hf
      · rw [if_neg hcond] at hm
        exact absurd hm (List.not_mem_nil rec)
    · rw [if_neg hcls] at hm
      exact absurd hm (List.not_mem_nil rec)
  · intro hmem
    obtain ⟨t, ht, hm⟩ := List.mem_flatMap.mp hmem
    dsimp only at hm
    by_cases hcond : (["date", "opponent", "game"].any
        (fun kw => substrB kw (pyLower
          (String.intercalate " " (ParseGameLog.table_headers t))))) = true
    · rw [if_pos hcond] at hm
      obtain ⟨r, hr, hf⟩ := List.mem_filterMap.mp hm
      unfold ParseGameLog.generic_row? at hf
      dsimp only at hf
      by_cases hlen : (ParseGameLog.row_tds r).length ≥ 3
      · rw [if_pos hlen] at hf
        by_cases hne : (ParseGameLog.build_game_data
            (ParseGameLog.table_headers t) (ParseGameLog.row_tds r)).isEmpty = true
        · rw [if_pos hne] at hf
          exact Option.noConfusion hf
        · rw [if_neg hne] at hf
          injection hf with hf'
          subst hf'
          refine ⟨?_, t, ht, r, hr, hlen, rfl⟩
          simpa [List.isEmpty_iff] using hne
      · rw [if_neg hlen] at hf
        exact Option.noConfusion hf
    · rw [if_neg hcond] at hm
      exact absurd hm (List.not_mem_nil rec)

/-- C2 witness: the sidearm guarantee applied to a table holding a
season-total row and one real game row: the surviving record's Date is
the real date, non-empty and free of Total. -/
theorem game_log_row_filters_witness :
    ∃ d, dict_get? [("Date", "2/14/2026"), ("Opponent", "Georgia State"),
      ("AB", "4")] "Date" = some d ∧ d ≠ "" ∧ substrB "Total" d = false := by
  exact ((game_log_row_filters
    [⟨[], [[⟨true, "Date"⟩, ⟨true, "Opponent"⟩, ⟨true, "AB"⟩],
           [⟨false, "Total"⟩, ⟨false, ""⟩, ⟨false, "40"⟩],
           [⟨false, "2/14/2026"⟩, ⟨false, "Georgia State"⟩, ⟨false, "4"⟩]]⟩]
    [("Date", "2/14/2026"), ("Opponent", "Georgia State"), ("AB", "4")]).1
    (by decide)).1

/-- Inserting into the dictionary model adds the new binding or keeps an
old one. -/
theorem mem_dict_insert {α : Type} {d : List (String × α)} {k : String}
    {v : α} {kv : String × α} (h : kv ∈ dict_insert d k v) :
    kv ∈ d ∨ kv = (k, v) := by
  unfold dict_insert at h
  by_cases hc : (d.any (fun p => p.1 == k)) = true
  · rw [if_pos hc] at h
    obtain ⟨p, hp, hpe⟩ := List.mem_map.mp h
    by_cases hpk : (p.1 == k) = true
    · rw [if_pos hpk] at hpe
      right
      exact hpe.symm
    · rw [if_neg hpk] at hpe
      left
      rw [← hpe]
      exact hp
  · rw [if_neg hc] at h
    rcases List.mem_append.mp h with h1 | h1
    · left; exact h1
    · right; exact List.mem_singleton.mp h1

/-- Every value stored by build_player_data is a clean_stat_value
application. -/
theorem build_player_data_values (headers cells : List String) :
    ∀ kv ∈ BoxScore.build_player_data headers cells,
      ∃ s, kv.2 = DataCleaner.clean_stat_value (some s) := by
  unfold BoxScore.build_player_data
  suffices h : ∀ (pairs : List (String × String))
      (d0 : List (String × DataCleaner.PyNum)),
      (∀ kv ∈ d0, ∃ s, kv.2 = DataCleaner.clean_stat_value (some s)) →
      ∀ kv ∈ pairs.foldl
        (fun d p => dict_insert d p.1 (DataCleaner.clean_stat_value (some p.2))) d0,
        ∃ s, kv.2 = DataCleaner.clean_stat_value (some s) by
    exact h (headers.zip cells) [] (by simp)
  intro pairs
  induction pairs with
  | nil => intro d0 h0 kv hkv; exact h0 kv hkv
  | cons p ps ih =>
      intro d0 h0 kv hkv
      refine ih _ ?_ kv hkv
      intro kv' hkv'
      rcases mem_dict_insert hkv' with h | h
      · exact h0 kv' h
      · exact ⟨p.2, by rw [h]⟩

/-- C10: every record of the box-score parser comes from an accepted
table and a row of at least two cells, and equals the dictionary that
keys each cell, cleaned by clean_stat_value, under the lowercased header
of its index; hence every field value is a Python number in the range of
clean_stat_value. -/
theorem parse_box_score_values_cleaned (platform : String)
    (tables : List ParseGameLog.STable) (rec : List (String × DataCleaner.PyNum))
    (h : rec ∈ BoxScore.parse_box_score platform tables) :
    (∃ t ∈ BoxScore.select_box_tables platform tables,
      BoxScore.box_table_accepted t = true ∧
      ∃ r ∈ t.rows.drop 1, 2 ≤ (BoxScore.row_all_cells r).length ∧
        rec = BoxScore.build_player_data (BoxScore.box_headers t)
          (BoxScore.row_all_cells r)) ∧
    (∀ kv ∈ rec, ∃ s, kv.2 = DataCleaner.clean_stat_value (some s)) := by
  obtain ⟨t, ht, hm⟩ := List.mem_flatMap.mp h
  by_cases hacc : BoxScore.box_table_accepted t = true
  · rw [if_pos hacc] at hm
    obtain ⟨r, hr, hf⟩ := List.mem_filterMap.mp hm
    unfold BoxScore.box_row? at hf
    dsimp only at hf
    by_cases hlen : (BoxScore.row_all_cells r).length ≥ 2
    · rw [if_pos hlen] at hf
      by_cases hne : (BoxScore.build_player_data (BoxScore.box_headers t)
          (BoxScore.row_all_cells r)).isEmpty = true
      · rw [if_pos hne] at hf
        exact Option.noConfusion hf
      · rw [if_neg hne] at hf
        injection hf with hf'
        subst hf'
        exact ⟨⟨t, ht, hacc, r, hr, hlen, rfl⟩, build_player_data_values _ _⟩
    · rw [if_neg hlen] at hf
      exact Option.noConfusion hf
  · rw [if_neg hacc] at hm
    exact absurd hm (List.not_mem_nil rec)

/-- C10 witness: the theorem applied to a two-column box-score table
whose first column is the player name: the name cell is cleaned to the
float 0.0 and the AB cell to the integer 4, both clean_stat_value
results. -/
theorem parse_box_score_values_cleaned_witness :
    ∃ s, (("player", DataCleaner.PyNum.pyFloat 0) : String × DataCleaner.PyNum).2 =
      DataCleaner.clean_stat_value (some s) := by
  exact (parse_box_score_values_cleaned "generic"
    [⟨[], [[⟨true, "Player"⟩, ⟨true, "AB"⟩],
           [⟨false, "John Smith"⟩, ⟨false, "4"⟩]]⟩]
    [("player", DataCleaner.PyNum.pyFloat 0), ("ab", DataCleaner.PyNum.pyInt 4)]
    (by decide)).2 ("player", DataCleaner.PyNum.pyFloat 0) (by decide)

/-- C3 counterexample: the config module detector resolves the domain
belmontbruins.com to sidearm, not generic, because its sidearm pattern
list contains the bare fragment .com. -/
theorem config_detect_platform_belmont_not_generic :
    Config.detect_platform "belmontbruins.com" = "sidearm" ∧
    Config.detect_platform "belmontbruins.com" ≠ "generic" := by
  exact ⟨by decide, by decide⟩

/-- A positive find? over the PLATFORMS table yields one of its keys. -/
theorem mem_of_platforms_find? {f : String × List String → Bool}
    {pr : String × List String}
    (h : PlatformDetector.PLATFORMS.find? f = some pr) :
    pr.1 ∈ detectablePlatforms := by
  have hm := List.mem_of_find?_eq_some h
  simp only [PlatformDetector.PLATFORMS, List.mem_cons,
    List.not_mem_nil, or_false] at hm
  rcases hm with rfl | rfl | rfl | rfl | rfl | rfl | rfl | rfl | rfl <;> decide

/-- The HTML signature scan only yields detectable identifiers. -/
theorem mem_of_htmlSignature {hl p : String}
    (h : PlatformDetector.htmlSignature hl = some p) :
    p ∈ detectablePlatforms := by
  unfold PlatformDetector.htmlSignature at h
  split_ifs at h <;> simp_all [detectablePlatforms]

/-- C4 (amended): both detectors are total functions with closed
codomains, but the codomains are larger than claimed: the
platform_detector variant always returns one of the nine claimed
identifiers or d3sports, and the config variant always returns one of
sidearm, prestosports, ncaa, generic. -/
theorem detect_platform_codomain :
    (∀ url html, PlatformDetector.detect_platform url html ∈ detectablePlatforms) ∧
    (∀ domain, Config.detect_platform domain ∈
      (["sidearm", "prestosports", "ncaa", "generic"] : List String)) := by
  constructor
  · intro url html
    unfold PlatformDetector.detect_platform
    dsimp only
    split
    next pr heq => exact mem_of_platforms_find? heq
    next heq =>
      split
      next p heq2 =>
        cases html with
        | none => exact Option.noConfusion heq2
        | some h =>
            dsimp only at heq2
            by_cases hh : (h == "") = true
            · rw [if_pos hh] at heq2
              exact Option.noConfusion heq2
            · rw [if_neg hh] at heq2
              exact mem_of_htmlSignature heq2
      next heq2 => split_ifs <;> decide
  · intro domain
    unfold Config.detect_platform
    split
    next pr heq =>
      have hm := List.mem_of_find?_eq_some heq
      simp only [Config.PLATFORM_DOMAINS, List.mem_cons,
        List.not_mem_nil, or_false] at hm
      rcases hm with rfl | rfl | rfl <;> decide
    next heq => decide

/-- C3 (amended): the platform_detector variant resolves the Belmont
roster URL, whose netloc matches no domain pattern, to generic when no
HTML is supplied, and resolves any URL whose netloc contains
sidearmsports.com to sidearm regardless of the HTML argument; the config
variant however resolves the bare domain belmontbruins.com to sidearm
through its .com pattern. -/
theorem detect_platform_belmont_sidearm :
    PlatformDetector.detect_platform
      "https://belmontbruins.com/sports/baseball/roster" none = "generic" ∧
    (∀ url html,
      substrB "sidearmsports.com" (pyLower (PlatformDetector.url_netloc url)) = true →
      PlatformDetector.detect_platform url html = "sidearm") ∧
    Config.detect_platform "belmontbruins.com" = "sidearm" := by
  refine ⟨by decide, ?_, by decide⟩
  intro url html h
  have hfind : PlatformDetector.PLATFORMS.find?
      (fun pr => pr.2.any
        (fun pat => substrB pat (pyLower (PlatformDetector.url_netloc url)))) =
      some ("sidearm", ["sidearmsports.com", "sidearmstats.com", "asics.com"]) := by
    simp only [PlatformDetector.PLATFORMS]
    apply List.find?_cons_of_pos
    simp only [List.any_cons, h, Bool.true_or]
  unfold PlatformDetector.detect_platform
  dsimp only
  rw [hfind]

/-- C3 witness: the theorem applied to a URL on the host
stats.sidearmsports.com together with signature-free HTML. -/
theorem detect_platform_belmont_sidearm_witness :
    PlatformDetector.detect_platform "https://stats.sidearmsports.com/roster"
      (some "<html>no signatures here</html>") = "sidearm" := by
  exact detect_platform_belmont_sidearm.2.1 "https://stats.sidearmsports.com/roster"
    (some "<html>no signatures here</html>") (by decide)

/-- A successful roster scan identifies a card that passed the substring
name test, the exact jersey test, and link resolution. -/
theorem fpu_loop_ok_of (np js dom ru pt : String) :
    ∀ (cards : List FindPlayerUrl.RosterCard) (u p : String),
      FindPlayerUrl.fpu_loop np js dom ru pt cards = .ok (u, p) →
      p = pt ∧ ∃ c ∈ cards, ∃ nt href,
        c.name_text = some nt ∧ c.link_href = some href ∧
        (substrB np (FindPlayerUrl.normalize_name nt) ||
         substrB (FindPlayerUrl.normalize_name nt) np) = true ∧
        js = (c.number_text.map pyStrip).getD "" ∧
        u = FindPlayerUrl.resolve_player_url href dom ru := by
  intro cards
  induction cards with
  | nil => intro u p h; exact Except.noConfusion h
  | cons card rest ih =>
      intro u p h
      cases hn : card.name_text with
      | none =>
          rw [FindPlayerUrl.fpu_loop, hn] at h
          obtain ⟨hp, c, hc, rest'⟩ := ih u p h
          exact ⟨hp, c, List.mem_cons_of_mem _ hc, rest'⟩
      | some nt =>
          rw [FindPlayerUrl.fpu_loop, hn] at h
          dsimp only at h
          by_cases hcond :
              ((substrB np (FindPlayerUrl.normalize_name nt) ||
                substrB (FindPlayerUrl.normalize_name nt) np) &&
               (js == (card.number_text.map pyStrip).getD "")) = true
          · rw [if_pos hcond] at h
            have hsplit := hcond
            rw [Bool.and_eq_true] at hsplit
            obtain ⟨hname, hnum⟩ := hsplit
            cases hh : card.link_href with
            | none =>
                rw [hh] at h
                obtain ⟨hp, c, hc, rest'⟩ := ih u p h
                exact ⟨hp, c, List.mem_cons_of_mem _ hc, rest'⟩
            | some href =>
                rw [hh] at h
                injection h with h'
                injection h' with hu hp
                exact ⟨hp.symm, card, List.mem_cons_self _ _, nt, href, hn, hh,
                  hname, eq_of_beq hnum, hu.symm⟩
          · rw [if_neg hcond] at h
            obtain ⟨hp, c, hc, rest'⟩ := ih u p h
            exact ⟨hp, c, List.mem_cons_of_mem _ hc, rest'⟩

/-- A roster scan in which no card passes all three tests raises. -/
theorem fpu_loop_err_of (np js dom ru pt : String) :
    ∀ cards : List FindPlayerUrl.RosterCard,
      (∀ c ∈ cards, ∀ nt, c.name_text = some nt →
        (substrB np (FindPlayerUrl.normalize_name nt) ||
         substrB (FindPlayerUrl.normalize_name nt) np) = false ∨
        js ≠ (c.number_text.map pyStrip).getD "" ∨
        c.link_href = none) →
      ∃ e, FindPlayerUrl.fpu_loop np js dom ru pt cards = .error e := by
  intro cards
  induction cards with
  | nil => exact fun _ => ⟨_, rfl⟩
  | cons card rest ih =>
      intro hyp
      have hrest := fun c hc => hyp c (List.mem_cons_of_mem _ hc)
      cases hn : card.name_text with
      | none =>
          obtain ⟨e, he⟩ := ih hrest
          exact ⟨e, by rw [FindPlayerUrl.fpu_loop, hn]; exact he⟩
      | some nt =>
          by_cases hcond :
              ((substrB np (FindPlayerUrl.normalize_name nt) ||
                substrB (FindPlayerUrl.normalize_name nt) np) &&
               (js == (card.number_text.map pyStrip).getD "")) = true
          · have hsplit := hcond
            rw [Bool.and_eq_true] at hsplit
            obtain ⟨hname, hnum⟩ := hsplit
            have hd := hyp card (List.mem_cons_self _ _) nt hn
            have hlink : card.link_href = none := by
              rcases hd with hd | hd | hd
              · rw [hname] at hd; exact Bool.noConfusion hd
              · exact absurd (eq_of_beq hnum) hd
              · exact hd
            obtain ⟨e, he⟩ := ih hrest
            refine ⟨e, ?_⟩
            rw [FindPlayerUrl.fpu_loop, hn]
            dsimp only
            rw [if_pos hcond, hlink]
            exact he
          · obtain ⟨e, he⟩ := ih hrest
            refine ⟨e, ?_⟩
            rw [FindPlayerUrl.fpu_loop, hn]
            dsimp only
            rw [if_neg hcond]
            exact he

/-- C1 (amended): the roster locator accepts a candidate card, returning
its resolved URL and the platform id, only if the whitespace-normalized
lowercased names match by substring containment in either direction AND
the trimmed jersey strings are exactly equal AND the card link resolves;
and when no card passes all three tests the call fails with an error. -/
theorem find_player_url_characterization
    (pn jn dom ru pt : String) (cards : List FindPlayerUrl.RosterCard) :
    (∀ u p, FindPlayerUrl.find_player_url pn jn dom ru pt cards = .ok (u, p) →
      p = pt ∧ ∃ c ∈ cards, ∃ nt href,
        c.name_text = some nt ∧ c.link_href = some href ∧
        (substrB (FindPlayerUrl.normalize_name pn) (FindPlayerUrl.normalize_name nt) ||
         substrB (FindPlayerUrl.normalize_name nt) (FindPlayerUrl.normalize_name pn)) = true ∧
        pyStrip jn = (c.number_text.map pyStrip).getD "" ∧
        u = FindPlayerUrl.resolve_player_url href dom ru) ∧
    ((∀ c ∈ cards, ∀ nt, c.name_text = some nt →
        (substrB (FindPlayerUrl.normalize_name pn) (FindPlayerUrl.normalize_name nt) ||
         substrB (FindPlayerUrl.normalize_name nt) (FindPlayerUrl.normalize_name pn)) = false ∨
        pyStrip jn ≠ (c.number_text.map pyStrip).getD "" ∨
        c.link_href = none) →
      ∃ e, FindPlayerUrl.find_player_url pn jn dom ru pt cards = .error e) := by
  by_cases hempty : cards.isEmpty = true
  · constructor
    · intro u p h
      rw [FindPlayerUrl.find_player_url, if_pos hempty] at h
      exact Except.noConfusion h
    · intro hyp
      exact ⟨_, by rw [FindPlayerUrl.find_player_url, if_pos hempty]⟩
  · constructor
    · intro u p h
      rw [FindPlayerUrl.find_player_url, if_neg hempty] at h
      exact fpu_loop_ok_of (FindPlayerUrl.normalize_name pn) (pyStrip jn)
        dom ru pt cards u p h
    · intro hyp
      obtain ⟨e, he⟩ := fpu_loop_err_of (FindPlayerUrl.normalize_name pn)
        (pyStrip jn) dom ru pt cards hyp
      exact ⟨e, by rw [FindPlayerUrl.find_player_url, if_neg hempty]; exact he⟩

/-- C1 witness: the theorem applied to the query Charlie Davis with
jersey 9 against a roster whose only card is Charlie Davis with jersey
8: the jersey test fails on the one card, so the call errors. -/
theorem find_player_url_characterization_witness :
    ∃ e, FindPlayerUrl.find_player_url "Charlie Davis" "9" "belmontbruins.com"
      "https://belmontbruins.com/sports/baseball/roster" "sidearm"
      [⟨some "Charlie Davis", some "8", some "/roster/charlie-davis"⟩] =
      .error e := by
  refine (find_player_url_characterization "Charlie Davis" "9" "belmontbruins.com"
    "https://belmontbruins.com/sports/baseball/roster" "sidearm"
    [⟨some "Charlie Davis", some "8", some "/roster/charlie-davis"⟩]).2 ?_
  intro c hc nt hnt
  rw [List.mem_singleton] at hc
  subst hc
  injection hnt with h'
  subst h'
  right
  left
  decide

/-- C4 counterexample: a domain of the d3sports pattern family makes the
detector return d3sports, which is outside the claimed closed set of
platform identifiers. -/
theorem detect_platform_returns_d3sports :
    PlatformDetector.detect_platform "https://d3baseball.com/schedule" none =
      "d3sports" ∧
    ¬ ("d3sports" ∈ (["sidearm", "presto", "genius", "statbroadcast", "ncaa",
        "stretch", "wmt", "revel", "generic"] : List String)) := by
  exact ⟨by decide, by decide⟩

end Scraper
